import Mathlib

/-!
Shallow embedding of the repository/commit aggregation pipeline of
`src/App.tsx` (the `fetchRepositories` effect), of the language filter
(`filteredRepositories` and the inline projects-section filter), of the
derived language list, and of the projects-section render branch.

Network effects are modelled by an explicit environment (`FetchEnv`) that
records the configured token, the outcome of the primary repository-list
request, and the outcome of each per-repository commit request; the
function `fetchRepositories` maps that environment to the state the
effect writes (`repositories`, `error`) together with the list of
outbound requests it issues.  Locale date formatting
(`new Date(x).toLocaleDateString()`) is kept abstract as a function
`fmt : Nat → String` on parsed timestamps, since it is
environment-dependent and not reimplemented here.
-/

/-- Display model of one commit author (the nested `author` object of the
TSX `Commit` interface). -/
structure CommitAuthor where
  name : String
  avatar_url : String
deriving DecidableEq, Repr

/-- Display model of one commit (the TSX `Commit` interface). -/
structure Commit where
  sha : String
  message : String
  date : String
  author : CommitAuthor
deriving DecidableEq, Repr

/-- Display model of one repository (the TSX `Repository` interface).
The TSX type annotation says `language: string`, but the raw API object is
mapped through unchecked, so `language` can be `null` at runtime; the
render code guards for that (`repo.language && …`), hence `Option String`
here. -/
structure Repository where
  name : String
  description : Option String
  html_url : String
  language : Option String
  stargazers_count : Nat
  forks_count : Nat
  topics : List String
  commits : List Commit
deriving DecidableEq, Repr

/-- Raw commit object as consumed from the upstream commits endpoint:
`{sha, commit:{message, author:{name, date}}, author:{avatar_url}}`.
`dateTs` is the parsed timestamp of `commit.commit.author.date`;
`avatarUrl` is `commit.author?.avatar_url`, `none` when the author object
or the field is absent. -/
structure RawCommit where
  sha : String
  message : String
  dateTs : Nat
  authorName : String
  avatarUrl : Option String
deriving DecidableEq, Repr

/-- Raw repository object as consumed from the upstream list endpoint.
`topics` is `none` when the field is absent (the code applies
`repo.topics || []`). -/
structure RawRepo where
  name : String
  description : Option String
  html_url : String
  language : Option String
  stargazers_count : Nat
  forks_count : Nat
  topics : Option (List String)
deriving DecidableEq, Repr

/-- Outcome of one per-repository commit request, as distinguished by the
code: an exception thrown anywhere in the per-repo block (transport
failure, `json()` failure, or a malformed payload making the `.map`
throw), a response with `ok = false` (the `if (commitsResponse.ok)` guard
fails and `commits` stays `[]`), or a well-formed payload. -/
inductive CommitFetchResult where
  | thrown (msg : String)
  | httpError (status : Nat)
  | ok (commitsData : List RawCommit)
deriving DecidableEq, Repr

/-- Outcome of the primary repository-list request: an exception thrown
during fetch/`json()`/`map` (transport failure or malformed payload), a
response with `ok = false` (carrying its status), or a well-formed list. -/
inductive PrimaryFetchResult where
  | thrown (msg : String)
  | httpError (status : Nat)
  | ok (data : List RawRepo)
deriving DecidableEq, Repr

/-- The fixed placeholder avatar URL used both as the `||` default in the
commit mapping and in the hardcoded fallback data. -/
def placeholderAvatar : String :=
  "https://github.githubassets.com/images/modules/logos_page/GitHub-Mark.png"

/-- Message thrown when the token is missing (line 84). -/
def tokenMissingMessage : String :=
  "GitHub token not found. Please add VITE_GITHUB_TOKEN to your environment variables."

/-- Message thrown on a 403 response (line 97). -/
def rateLimitMessage : String :=
  "GitHub API rate limit exceeded. Please try again later."

/-- Message thrown on any other non-ok response (line 99). -/
def fetchFailedMessage : String :=
  "Failed to fetch repositories"

/-- Secondary text of the error branch of the projects section
(line 1012). -/
def demoNote : String :=
  "Showing demo repositories instead. Please try again later."

/-- URL of the primary repository-list request (line 87). -/
def reposUrl : String :=
  "https://api.github.com/users/Uvindu2002/repos"

/-- URL of the per-repository commits request (line 108). -/
def commitsUrl (repoName : String) : String :=
  "https://api.github.com/repos/Uvindu2002/" ++ repoName ++ "/commits?per_page=3"

/-- JS falsiness of the token value read from the environment:
`!token` is true when the variable is absent (`undefined`) or the empty
string. -/
def tokenFalsy : Option String → Bool
  | none => true
  | some s => s = ""

/-- JS `substring(a, b)` on code units, embedded on the character list of
the string (all strings involved are ASCII). -/
def jsSubstring (s : String) (a b : Nat) : String :=
  String.mk ((s.data.drop a).take (b - a))

/-- JS `v || dflt` for an optional string `v`: the default is taken when
`v` is absent or the empty string (both falsy). -/
def orFalsy (v : Option String) (dflt : String) : String :=
  match v with
  | none => dflt
  | some s => if s = "" then dflt else s

/-- The commit mapping of lines 121–129: truncate the sha with
`substring(0, 7)`, keep the message, format the date, and default the
avatar URL with `||`. -/
def mapCommit (fmt : Nat → String) (c : RawCommit) : Commit :=
  { sha := jsSubstring c.sha 0 7
    message := c.message
    date := fmt c.dateTs
    author :=
      { name := c.authorName
        avatar_url := orFalsy c.avatarUrl placeholderAvatar } }

/-- The per-repository block of lines 105–155: build the `Repository`
from the raw fields, with `topics || []`, and with commits mapped from
the payload when the commit request succeeded with a well-formed payload,
and `[]` on a non-ok response or a thrown exception (caught locally). -/
def buildRepo (fmt : Nat → String) (repo : RawRepo) (res : CommitFetchResult) :
    Repository :=
  { name := repo.name
    description := repo.description
    html_url := repo.html_url
    language := repo.language
    stargazers_count := repo.stargazers_count
    forks_count := repo.forks_count
    topics := repo.topics.getD []
    commits :=
      match res with
      | CommitFetchResult.ok commitsData => commitsData.map (mapCommit fmt)
      | _ => [] }

/-- The hardcoded fallback dataset of lines 163–204. `today` is the value
of `new Date().toLocaleDateString()` at the time of the failure. -/
def fallbackRepositories (today : String) : List Repository :=
  [ { name := "Portfolio Website"
      description := some "My personal portfolio website built with React and TypeScript"
      html_url := "https://github.com/Uvindu2002/portfolio"
      language := some "TypeScript"
      stargazers_count := 0
      forks_count := 0
      topics := ["react", "typescript", "tailwindcss"]
      commits :=
        [ { sha := "abc1234"
            message := "Initial commit"
            date := today
            author :=
              { name := "Uvindu Pramuditha"
                avatar_url := placeholderAvatar } } ] },
    { name := "Data Science Projects"
      description := some "Collection of data science and machine learning projects"
      html_url := "https://github.com/Uvindu2002/data-science-projects"
      language := some "Python"
      stargazers_count := 0
      forks_count := 0
      topics := ["python", "machine-learning", "data-science"]
      commits :=
        [ { sha := "def5678"
            message := "Add initial project structure"
            date := today
            author :=
              { name := "Uvindu Pramuditha"
                avatar_url := placeholderAvatar } } ] } ]

/-- Environment of one fetch cycle: the configured token, the outcome of
the primary request, the outcome of the commit request for each
repository name, the abstract locale date formatter, and today's
formatted date. -/
structure FetchEnv where
  token : Option String
  primary : PrimaryFetchResult
  commitResult : String → CommitFetchResult
  fmt : Nat → String
  today : String

/-- What the effect writes: the `repositories` and `error` state values,
plus the list of outbound request URLs the cycle issued. -/
structure FetchOutcome where
  repositories : List Repository
  error : Option String
  requests : List String
deriving DecidableEq, Repr

/-- The `fetchRepositories` effect of lines 79–211 as a function of the
environment.  A falsy token throws before any request; a thrown primary
fetch or a non-ok response (403 distinguished) lands in the catch block,
which sets the error message and substitutes the fallback dataset; on
success every repository is mapped through the per-repository block and
the error is cleared. -/
def fetchRepositories (env : FetchEnv) : FetchOutcome :=
  if tokenFalsy env.token then
    { repositories := fallbackRepositories env.today
      error := some tokenMissingMessage
      requests := [] }
  else
    match env.primary with
    | PrimaryFetchResult.thrown msg =>
        { repositories := fallbackRepositories env.today
          error := some msg
          requests := [reposUrl] }
    | PrimaryFetchResult.httpError status =>
        { repositories := fallbackRepositories env.today
          error := some (if status = 403 then rateLimitMessage else fetchFailedMessage)
          requests := [reposUrl] }
    | PrimaryFetchResult.ok data =>
        { repositories :=
            data.map (fun repo => buildRepo env.fmt repo (env.commitResult repo.name))
          error := none
          requests := reposUrl :: data.map (fun repo => commitsUrl repo.name) }

/-- Whether the cycle reached the success path (token present and primary
request returned a well-formed list). -/
def primarySucceeded (env : FetchEnv) : Bool :=
  !(tokenFalsy env.token) &&
    (match env.primary with
     | PrimaryFetchResult.ok _ => true
     | _ => false)

/-- Whether a per-repository commit request failed (thrown or non-ok). -/
def commitFetchFailed : CommitFetchResult → Bool
  | CommitFetchResult.ok _ => false
  | _ => true

/-- The language filter of lines 217–219: `'All'` selects everything,
otherwise `repo.language === selectedLanguage` (a `null` language is
never `===` a string). -/
def filteredRepositories (repositories : List Repository)
    (selectedLanguage : String) : List Repository :=
  if selectedLanguage = "All" then repositories
  else repositories.filter (fun repo => repo.language == some selectedLanguage)

/-- The inline filter of the projects section (line 1066):
`projectFilter === 'All' || repo.language === projectFilter`. -/
def projectFilteredRepositories (repositories : List Repository)
    (projectFilter : String) : List Repository :=
  repositories.filter
    (fun repo => projectFilter == "All" || repo.language == some projectFilter)

/-- Insertion-order deduplication accumulator, the behaviour of spreading
a JS `Set` built from a list: first occurrences survive, in order. -/
def setDedupAux (acc : List String) : List String → List String
  | [] => acc
  | x :: xs => setDedupAux (if x ∈ acc then acc else acc ++ [x]) xs

/-- `[...new Set(xs)]`. -/
def setDedup (xs : List String) : List String :=
  setDedupAux [] xs

/-- The derived language list of line 214 (and, identically, of the
filter-button render at line 972):
`['All', ...new Set(repositories.map(repo => repo.language).filter(Boolean))]`.
`filter(Boolean)` drops `null` languages (the `filterMap`) and empty
strings. -/
def languages (repositories : List Repository) : List String :=
  "All" :: setDedup
    ((repositories.filterMap Repository.language).filter (fun s => s != ""))

/-- The four mutually exclusive branches the projects section can render
(lines 991–1176): the loading spinner, the error banner (with the error
message and the fixed secondary note), the empty notice, or the card
gallery over the filtered repositories. -/
inductive ProjectsView where
  | loadingSpinner
  | errorBanner (message : String) (note : String)
  | emptyNotice
  | gallery (cards : List Repository)
deriving DecidableEq, Repr

/-- The render decision of the projects section, following the ternary
chain `loading ? … : error ? … : repositories.length === 0 ? … : …`. -/
def renderProjects (loading : Bool) (error : Option String)
    (repositories : List Repository) (projectFilter : String) : ProjectsView :=
  if loading then ProjectsView.loadingSpinner
  else
    match error with
    | some msg => ProjectsView.errorBanner msg demoNote
    | none =>
        if repositories.length = 0 then ProjectsView.emptyNotice
        else ProjectsView.gallery (projectFilteredRepositories repositories projectFilter)

/-! ### Concrete fixtures used to evaluate the definitions -/

/-- A stand-in locale date formatter. -/
def fmtD : Nat → String := fun _ => "formatted"

/-- Environment with no configured token. -/
def envNoToken : FetchEnv :=
  { token := none
    primary := PrimaryFetchResult.thrown "network unreachable"
    commitResult := fun _ => CommitFetchResult.ok []
    fmt := fmtD
    today := "1/1/2024" }

/-- A raw repository as returned by the list endpoint. -/
def rawA : RawRepo :=
  { name := "A"
    description := none
    html_url := "https://example.com/A"
    language := some "Go"
    stargazers_count := 1
    forks_count := 0
    topics := none }

/-- Newest raw commit (larger timestamp), upstream avatar absent. -/
def cNew : RawCommit :=
  { sha := "0123456789abcdef"
    message := "newest"
    dateTs := 200
    authorName := "Ann"
    avatarUrl := none }

/-- Older raw commit, upstream avatar present. -/
def cOld : RawCommit :=
  { sha := "fedcba9876543210"
    message := "older"
    dateTs := 100
    authorName := "Bob"
    avatarUrl := some "https://example.com/bob.png" }

/-- Fully successful cycle: one repository, two commits newest first. -/
def envOk : FetchEnv :=
  { token := some "tok"
    primary := PrimaryFetchResult.ok [rawA]
    commitResult := fun _ => CommitFetchResult.ok [cNew, cOld]
    fmt := fmtD
    today := "1/1/2024" }

/-- Primary fetch succeeds with one repository whose commit fetch returns
HTTP 500. -/
def envCommit500 : FetchEnv :=
  { token := some "tok"
    primary := PrimaryFetchResult.ok [rawA]
    commitResult := fun _ => CommitFetchResult.httpError 500
    fmt := fmtD
    today := "1/1/2024" }

/-- The repository the successful cycle of `envOk` produces. -/
def rExpectedC3 : Repository :=
  buildRepo fmtD rawA (CommitFetchResult.ok [cNew, cOld])

/-- Display repository "A" with language Go (spec §8 example). -/
def repoGoA : Repository :=
  { name := "A"
    description := none
    html_url := "https://example.com/a"
    language := some "Go"
    stargazers_count := 0
    forks_count := 0
    topics := []
    commits := [] }

/-- Display repository "B" with language Go (spec §8 example). -/
def repoGoB : Repository :=
  { name := "B"
    description := none
    html_url := "https://example.com/b"
    language := some "Go"
    stargazers_count := 0
    forks_count := 0
    topics := []
    commits := [] }

/-- Display repository "C" with null language (spec §8 example). -/
def repoNullC : Repository :=
  { name := "C"
    description := none
    html_url := "https://example.com/c"
    language := none
    stargazers_count := 0
    forks_count := 0
    topics := []
    commits := [] }

/-- The three-repository collection of the spec §8 example. -/
def exampleRepos : List Repository :=
  [repoGoA, repoGoB, repoNullC]

/-- A repository whose primary language is the literal string "All". -/
def repoAllLang : Repository :=
  { name := "AllRepo"
    description := none
    html_url := "https://example.com/all"
    language := some "All"
    stargazers_count := 0
    forks_count := 0
    topics := []
    commits := [] }

/-- Collection containing a repository whose language is "All". -/
def allLangRepos : List Repository :=
  [repoAllLang]

/-! ### Helper lemmas -/

/-- Membership after insertion-order deduplication, generalized over the
accumulator. -/
theorem mem_setDedupAux (a : String) :
    ∀ (xs acc : List String), a ∈ setDedupAux acc xs ↔ a ∈ acc ∨ a ∈ xs := by
  intro xs
  induction xs with
  | nil => intro acc; simp [setDedupAux]
  | cons x xs ih =>
    intro acc
    by_cases h : x ∈ acc
    · rw [setDedupAux, if_pos h, ih]
      simp only [List.mem_cons]
      constructor
      · tauto
      · rintro (ha | rfl | ha) <;> tauto
    · rw [setDedupAux, if_neg h, ih]
      simp only [List.mem_append, List.mem_singleton, List.mem_cons]
      tauto

/-- Insertion-order deduplication keeps the accumulator duplicate-free. -/
theorem nodup_setDedupAux :
    ∀ (xs acc : List String), acc.Nodup → (setDedupAux acc xs).Nodup := by
  intro xs
  induction xs with
  | nil => intro acc h; simpa [setDedupAux] using h
  | cons x xs ih =>
    intro acc h
    by_cases hx : x ∈ acc
    · rw [setDedupAux, if_pos hx]; exact ih acc h
    · rw [setDedupAux, if_neg hx]
      exact ih _ (by simp [List.nodup_append, h, hx])

/-- `[...new Set(xs)]` has the same members as `xs`. -/
theorem mem_setDedup (a : String) (xs : List String) :
    a ∈ setDedup xs ↔ a ∈ xs := by
  rw [setDedup, mem_setDedupAux]
  simp

/-- `[...new Set(xs)]` is duplicate-free. -/
theorem nodup_setDedup (xs : List String) : (setDedup xs).Nodup :=
  nodup_setDedupAux xs [] List.nodup_nil

/-! ### Claim theorems -/

/-- C1: whenever the primary repository-list fetch fails (falsy token, a
thrown transport/parse error, or any non-ok response), the resulting
repository collection is exactly the hardcoded fallback set of 2 entries
— never a partial mix and never empty — paired with an error message. -/
theorem C1_primary_failure_yields_exact_fallback (env : FetchEnv)
    (h : primarySucceeded env = false) :
    (fetchRepositories env).repositories = fallbackRepositories env.today ∧
    (fetchRepositories env).repositories.length = 2 ∧
    (fetchRepositories env).error.isSome = true := by
  unfold primarySucceeded at h
  cases htok : tokenFalsy env.token with
  | true => simp [fetchRepositories, htok, fallbackRepositories]
  | false =>
    rw [htok] at h
    simp only [Bool.not_false, Bool.true_and] at h
    cases hp : env.primary with
    | thrown msg => simp [fetchRepositories, htok, hp, fallbackRepositories]
    | httpError status => simp [fetchRepositories, htok, hp, fallbackRepositories]
    | ok data => rw [hp] at h; simp at h

/-- C1 witness: with no token configured, the collection is exactly the
2-entry fallback set. -/
theorem C1_witness :
    primarySucceeded envNoToken = false ∧
    (fetchRepositories envNoToken).repositories = fallbackRepositories "1/1/2024" :=
  ⟨rfl, (C1_primary_failure_yields_exact_fallback envNoToken rfl).1⟩

/-- C2: at the failing input (loading settled, error set, fallback data
in state) the projects section renders only the error banner — the
`gallery` branch of the ternary chain is unreachable whenever `error` is
non-null, so no repository cards are shown, contradicting the claimed
"banner above a populated fallback gallery" and the banner's own
"Showing demo repositories instead" text. -/
theorem C2_error_branch_renders_banner_only :
    renderProjects false (some fetchFailedMessage)
        (fallbackRepositories "1/1/2024") "All"
      = ProjectsView.errorBanner fetchFailedMessage demoNote := rfl

/-- C7: with a falsy (absent or empty) credential the cycle issues no
outbound request, reports the configuration-error message, and returns
the fixed 2-entry fallback set. -/
theorem C7_missing_token_means_no_request_and_fallback (env : FetchEnv)
    (h : tokenFalsy env.token = true) :
    (fetchRepositories env).requests = [] ∧
    (fetchRepositories env).error = some tokenMissingMessage ∧
    (fetchRepositories env).repositories = fallbackRepositories env.today ∧
    (fetchRepositories env).repositories.length = 2 := by
  simp [fetchRepositories, h, fallbackRepositories]

/-- C7 witness: concrete tokenless environment, no request issued. -/
theorem C7_witness :
    tokenFalsy envNoToken.token = true ∧
    (fetchRepositories envNoToken).requests = [] :=
  ⟨rfl, (C7_missing_token_means_no_request_and_fallback envNoToken rfl).1⟩

/-- C8 counterexample: in the hardcoded fallback dataset the number of
entries carrying a single synthetic commit is 2, not 1 — both
hand-authored records have exactly one commit, refuting "of which one has
a single synthetic commit". -/
theorem C8_counterexample_both_entries_have_a_commit :
    (fallbackRepositories "1/1/2024").countP (fun r => r.commits.length == 1) = 2 ∧
    ¬ (fallbackRepositories "1/1/2024").countP (fun r => r.commits.length == 1) = 1 := by
  decide

/-- C8 (amended): the fixed fallback dataset consists of exactly two
hand-authored records, each of which has a single synthetic commit. -/
theorem C8_fallback_two_entries_each_one_commit (today : String) :
    (fallbackRepositories today).length = 2 ∧
    (fallbackRepositories today).all (fun r => r.commits.length == 1) = true :=
  ⟨rfl, rfl⟩

/-- C3: in a successful fetch cycle, under the upstream contract of the
`per_page=3` commits endpoint (at most 3 commit objects, newest first),
every resulting repository's commit sequence has length at most 3 and is
the order-preserving image of a newest-first raw sequence. -/
theorem C3_commits_bounded_and_newest_first (env : FetchEnv)
    (hc : ∀ repoName cs, env.commitResult repoName = CommitFetchResult.ok cs →
      cs.length ≤ 3 ∧ List.Pairwise (fun a b => b.dateTs ≤ a.dateTs) cs)
    (hs : primarySucceeded env = true) :
    ∀ r ∈ (fetchRepositories env).repositories,
      r.commits.length ≤ 3 ∧
      ∃ raw : List RawCommit,
        r.commits = raw.map (mapCommit env.fmt) ∧
        List.Pairwise (fun a b => b.dateTs ≤ a.dateTs) raw := by
  intro r hr
  unfold primarySucceeded at hs
  cases htok : tokenFalsy env.token with
  | true => rw [htok] at hs; simp at hs
  | false =>
    rw [htok] at hs
    simp only [Bool.not_false, Bool.true_and] at hs
    cases hp : env.primary with
    | thrown msg => rw [hp] at hs; simp at hs
    | httpError status => rw [hp] at hs; simp at hs
    | ok data =>
      have hrepos : (fetchRepositories env).repositories
          = data.map (fun repo => buildRepo env.fmt repo (env.commitResult repo.name)) := by
        simp [fetchRepositories, htok, hp]
      rw [hrepos] at hr
      obtain ⟨rr, hrr, rfl⟩ := List.mem_map.mp hr
      cases hres : env.commitResult rr.name with
      | ok cs =>
        obtain ⟨hlen, hpair⟩ := hc rr.name cs hres
        refine ⟨?_, cs, ?_, hpair⟩
        · simp only [buildRepo, hres, List.length_map]
          exact hlen
        · simp [buildRepo, hres]
      | thrown msg =>
        exact ⟨by simp [buildRepo, hres], [], by simp [buildRepo, hres], List.Pairwise.nil⟩
      | httpError status =>
        exact ⟨by simp [buildRepo, hres], [], by simp [buildRepo, hres], List.Pairwise.nil⟩

/-- C3 witness: the concrete successful cycle of `envOk` yields a
repository whose commit list has at most 3 entries. -/
theorem C3_witness :
    rExpectedC3 ∈ (fetchRepositories envOk).repositories ∧
    rExpectedC3.commits.length ≤ 3 :=
  have hmem : rExpectedC3 ∈ (fetchRepositories envOk).repositories := by decide
  ⟨hmem,
    (C3_commits_bounded_and_newest_first envOk
      (fun repoName cs h => by
        injection h with h2
        subst h2
        exact ⟨by decide, by decide⟩)
      rfl rExpectedC3 hmem).1⟩

/-- C4: if the primary fetch succeeds, a repository whose own commit
fetch fails (thrown or non-ok response) still appears in the result set
with an empty commit sequence, and the cycle surfaces no error. -/
theorem C4_commit_failure_keeps_repo_with_empty_commits (env : FetchEnv)
    (data : List RawRepo) (htok : tokenFalsy env.token = false)
    (hp : env.primary = PrimaryFetchResult.ok data) :
    (fetchRepositories env).error = none ∧
    ∀ r ∈ data, commitFetchFailed (env.commitResult r.name) = true →
      buildRepo env.fmt r (env.commitResult r.name) ∈ (fetchRepositories env).repositories ∧
      (buildRepo env.fmt r (env.commitResult r.name)).commits = [] ∧
      (buildRepo env.fmt r (env.commitResult r.name)).name = r.name := by
  constructor
  · simp [fetchRepositories, htok, hp]
  · intro r hr hfail
    refine ⟨?_, ?_, rfl⟩
    · have hrepos : (fetchRepositories env).repositories
          = data.map (fun repo => buildRepo env.fmt repo (env.commitResult repo.name)) := by
        simp [fetchRepositories, htok, hp]
      rw [hrepos]
      exact List.mem_map_of_mem _ hr
    · cases hres : env.commitResult r.name with
      | ok cs => rw [hres] at hfail; simp [commitFetchFailed] at hfail
      | thrown msg => simp [buildRepo, hres]
      | httpError status => simp [buildRepo, hres]

/-- C4 witness: spec §8 scenario — primary fetch succeeds with 1
repository whose commit fetch returns HTTP 500; the cycle succeeds and
the repository has an empty commit list. -/
theorem C4_witness :
    (fetchRepositories envCommit500).error = none ∧
    (buildRepo fmtD rawA (CommitFetchResult.httpError 500)).commits = [] :=
  have h := C4_commit_failure_keeps_repo_with_empty_commits envCommit500 [rawA] rfl rfl
  ⟨h.1, (h.2 rawA (List.mem_singleton_self _) rfl).2.1⟩

/-- C5: on a successful primary fetch, the output sequence has the same
length as the upstream list and carries the upstream names in the same
order — no drops, no duplicates, no client-side sort. -/
theorem C5_success_preserves_length_and_order (env : FetchEnv)
    (data : List RawRepo) (htok : tokenFalsy env.token = false)
    (hp : env.primary = PrimaryFetchResult.ok data) :
    (fetchRepositories env).repositories.length = data.length ∧
    (fetchRepositories env).repositories.map Repository.name = data.map RawRepo.name := by
  have hrepos : (fetchRepositories env).repositories
      = data.map (fun repo => buildRepo env.fmt repo (env.commitResult repo.name)) := by
    simp [fetchRepositories, htok, hp]
  rw [hrepos]
  exact ⟨List.length_map _ _, by rw [List.map_map]; rfl⟩

/-- C5 witness: the one-repository successful cycle yields one output. -/
theorem C5_witness :
    tokenFalsy envOk.token = false ∧
    (fetchRepositories envOk).repositories.length = 1 :=
  ⟨rfl, ((C5_success_preserves_length_and_order envOk [rawA] rfl rfl).1).trans rfl⟩

/-- C6: selecting "All" is the identity transform (in both the
`filteredRepositories` derivation and the inline projects-section
filter); selecting a specific language `L` returns exactly the subset
whose language is `L` under exact comparison; a repository with a null
language never matches a non-"All" selection; both filter expressions
agree. -/
theorem C6_filter_semantics (repos : List Repository) (L : String)
    (hL : ¬ L = "All") :
    filteredRepositories repos "All" = repos ∧
    projectFilteredRepositories repos "All" = repos ∧
    (∀ r, r ∈ filteredRepositories repos L ↔ r ∈ repos ∧ r.language = some L) ∧
    (∀ r, r.language = none → r ∉ filteredRepositories repos L) ∧
    projectFilteredRepositories repos L = filteredRepositories repos L := by
  refine ⟨?_, ?_, ?_, ?_, ?_⟩
  · simp [filteredRepositories]
  · simp [projectFilteredRepositories]
  · intro r
    rw [filteredRepositories, if_neg hL]
    simp [List.mem_filter]
  · intro r hnone hmem
    rw [filteredRepositories, if_neg hL, List.mem_filter, hnone] at hmem
    simp at hmem
  · rw [filteredRepositories, if_neg hL]
    unfold projectFilteredRepositories
    congr 1
    funext repo
    have hbeq : (L == "All") = false := by
      simp only [beq_eq_false_iff_ne, ne_eq]
      exact hL
    rw [hbeq, Bool.false_or]

/-- C6 witness: on the spec §8 example collection, the "Go" selection is
a legal non-"All" selection and "All" is the identity. -/
theorem C6_witness :
    ¬ ("Go" : String) = "All" ∧
    filteredRepositories exampleRepos "All" = exampleRepos :=
  ⟨by decide, (C6_filter_semantics exampleRepos "Go" (by decide)).1⟩

/-- C9: every mapped commit has its sha truncated to the 7-character
prefix of the full hash (it is a prefix: truncation plus remainder
rebuilds the full hash, and its length is at most 7), its date obtained
by applying the locale formatter to the commit timestamp, and its avatar
URL set to the fixed placeholder whenever the upstream omits one. -/
theorem C9_commit_mapping (fmt : Nat → String) (c : RawCommit) :
    (mapCommit fmt c).sha.data = c.sha.data.take 7 ∧
    (mapCommit fmt c).sha.length ≤ 7 ∧
    (mapCommit fmt c).sha.data ++ c.sha.data.drop 7 = c.sha.data ∧
    (mapCommit fmt c).date = fmt c.dateTs ∧
    (c.avatarUrl = none → (mapCommit fmt c).author.avatar_url = placeholderAvatar) := by
  refine ⟨rfl, ?_, ?_, rfl, ?_⟩
  · have h : (mapCommit fmt c).sha.length = (c.sha.data.take 7).length := rfl
    rw [h, List.length_take]
    exact min_le_left _ _
  · have h : (mapCommit fmt c).sha.data = c.sha.data.take 7 := rfl
    rw [h, List.take_append_drop]
  · intro h
    show orFalsy c.avatarUrl placeholderAvatar = placeholderAvatar
    rw [h, orFalsy]

/-- C9 witness: a concrete commit with the avatar omitted upstream gets
the placeholder avatar. -/
theorem C9_witness :
    cNew.avatarUrl = none ∧
    (mapCommit fmtD cNew).author.avatar_url = placeholderAvatar :=
  ⟨rfl, (C9_commit_mapping fmtD cNew).2.2.2.2 rfl⟩

/-- C10: if some repository's language is the literal string "All", the
derived selectable-language list contains "All" exactly twice (the
hardcoded head plus the observed value), selecting "All" is still the
identity transform, and no non-"All" selection ever returns a repository
whose language is "All" — such repositories can never be isolated. -/
theorem C10_all_language_duplicated_and_unisolable (repos : List Repository)
    (h : ∃ r ∈ repos, r.language = some "All") :
    List.count "All" (languages repos) = 2 ∧
    filteredRepositories repos "All" = repos ∧
    (∀ s, ¬ s = "All" →
      ∀ r ∈ filteredRepositories repos s, ¬ r.language = some "All") := by
  obtain ⟨r0, hr0, hlang⟩ := h
  refine ⟨?_, ?_, ?_⟩
  · have hobs : "All" ∈ (repos.filterMap Repository.language).filter (fun s => s != "") := by
      rw [List.mem_filter]
      exact ⟨List.mem_filterMap.mpr ⟨r0, hr0, hlang⟩, by decide⟩
    have hmem := (mem_setDedup "All" _).mpr hobs
    have hnodup := nodup_setDedup
      ((repos.filterMap Repository.language).filter (fun s => s != ""))
    have hone := List.count_eq_one_of_mem hnodup hmem
    have hlangs : languages repos
        = "All" :: setDedup ((repos.filterMap Repository.language).filter (fun s => s != "")) :=
      rfl
    rw [hlangs, List.count_cons_self, hone]
  · simp [filteredRepositories]
  · intro s hs r hr hlang2
    rw [filteredRepositories, if_neg hs, List.mem_filter, hlang2] at hr
    have hbeq := hr.2
    simp only [beq_iff_eq, Option.some.injEq] at hbeq
    exact hs hbeq.symm

/-- C10 witness: a collection containing an "All"-language repository
yields a language list counting "All" twice, and "All" still selects
everything. -/
theorem C10_witness :
    List.count "All" (languages allLangRepos) = 2 ∧
    filteredRepositories allLangRepos "All" = allLangRepos :=
  have h := C10_all_language_duplicated_and_unisolable allLangRepos
    ⟨repoAllLang, List.mem_singleton_self _, rfl⟩
  ⟨h.1, h.2.1⟩
